import Mathlib

/-!
Verification development for the spbook-trader decision pipeline.

Shallow embedding conventions:
* `rust_decimal::Decimal` and `f64` quantities are both modelled as `Rat`
  (exact rational arithmetic; `Decimal` is exact in the source, and the
  floating-point fields only ever carry finite values produced by the
  rational formulas modelled here).
* `Uuid::new_v4()` (a fresh random identifier) is modelled as a caller
  supplied `Nat` identifier; identity of bets is all the code uses it for.
* `DateTime<Utc>` timestamp fields (`timestamp`, `last_updated`,
  `prediction_timestamp`, ...) are omitted: no claim depends on wall time.
* `Result<T, QuantsError>` becomes `Except QuantsError T`; the error
  payload strings are dropped, keeping only the variant.
* `e^{-lambda}` inside the Poisson model is transcendental, so
  `poisson_probability` takes the value of `(-lambda).exp()` as an explicit
  parameter (`e_neg_lambda`), which is strictly positive for the real
  exponential.
-/

namespace Spbook

/-- Error variants from `crates/models/src/error.rs` used by the modelled code
(payload strings elided). -/
inductive QuantsError where
  | invalidStake
  | invalidOdds
  | invalidProbability
  | matchNotFound
  deriving Repr, DecidableEq

/-- `BetType` from `crates/models/src/betting.rs`. -/
inductive BetType where
  | homeWin
  | draw
  | awayWin
  | overUnder (line : Rat) (over : Bool)
  | asianHandicap (line : Rat) (team : String)
  | bothTeamsToScore (yes : Bool)
  | correctScore (home_goals away_goals : Nat)
  deriving Repr, DecidableEq

/-- `BetStatus` from `crates/models/src/betting.rs`. -/
inductive BetStatus where
  | pending
  | placed
  | won
  | lost
  | void
  | cashedOut (amount : Rat)
  deriving Repr, DecidableEq

/-- `BettingDecision` from `crates/models/src/betting.rs` (id modelled as `Nat`,
timestamp and json metadata omitted). -/
structure BettingDecision where
  id : Nat
  match_id : String
  bet_type : BetType
  stake : Rat
  odds : Rat
  expected_value : Rat
  kelly_fraction : Rat
  confidence : Rat
  strategy : String
  status : BetStatus
  deriving Repr, DecidableEq

/-- `BettingDecision::new` (betting.rs lines 82-130).  The fresh `Uuid` is the
caller-supplied `id`. -/
def BettingDecision.new (id : Nat) (match_id : String) (bet_type : BetType)
    (stake odds : Rat) (true_probability : Rat) (strategy : String) :
    Except QuantsError BettingDecision :=
  if stake ≤ 0 then
    .error .invalidStake
  else if odds ≤ 1 then
    .error .invalidOdds
  else
    let implied_probability := 1 / odds
    let expected_value := true_probability * odds - 1
    let edge := true_probability - implied_probability
    -- Kelly criterion: f = (bp - q) / b with b = odds - 1, p = true prob, q = 1 - p
    let b := odds - 1
    let q := 1 - true_probability
    let kelly_fraction := max (if 0 < b then (b * true_probability - q) / b else 0) 0
    .ok { id := id
          match_id := match_id
          bet_type := bet_type
          stake := stake
          odds := odds
          expected_value := expected_value
          kelly_fraction := kelly_fraction
          confidence := edge
          strategy := strategy
          status := .pending }

/-- `BettingDecision::potential_payout`. -/
def BettingDecision.potential_payout (b : BettingDecision) : Rat :=
  b.stake * b.odds

/-- `BettingDecision::update_status` (functional form). -/
def BettingDecision.update_status (b : BettingDecision) (status : BetStatus) :
    BettingDecision :=
  { b with status := status }

/-- `Portfolio` from `crates/models/src/betting.rs` (`last_updated` omitted). -/
structure Portfolio where
  total_bankroll : Rat
  available_bankroll : Rat
  active_bets : List BettingDecision
  historical_bets : List BettingDecision
  total_profit_loss : Rat
  roi : Rat
  win_rate : Rat
  sharpe_ratio : Rat
  max_drawdown : Rat
  deriving Repr, DecidableEq

/-- `Portfolio::new` (betting.rs lines 234-248). -/
def Portfolio.new (initial_bankroll : Rat) : Portfolio :=
  { total_bankroll := initial_bankroll
    available_bankroll := initial_bankroll
    active_bets := []
    historical_bets := []
    total_profit_loss := 0
    roi := 0
    win_rate := 0
    sharpe_ratio := 0
    max_drawdown := 0 }

/-- `Portfolio::place_bet` (betting.rs lines 250-263): rejects a stake above the
available bankroll, otherwise debits the stake and appends the bet (marked
`Placed`) to the active list. -/
def Portfolio.place_bet (p : Portfolio) (bet : BettingDecision) :
    Except QuantsError Portfolio :=
  if p.available_bankroll < bet.stake then
    .error .invalidStake
  else
    .ok { p with
          available_bankroll := p.available_bankroll - bet.stake
          active_bets := p.active_bets ++ [bet.update_status .placed] }

/-- `Vec::remove` at the `position` of the first bet with the given id, as used
by `Portfolio::settle_bet`: returns the removed bet and the remaining list. -/
def removeBet (bet_id : Nat) : List BettingDecision →
    Option (BettingDecision × List BettingDecision)
  | [] => none
  | b :: bs =>
    if b.id = bet_id then
      some (b, bs)
    else
      match removeBet bet_id bs with
      | none => none
      | some (x, rest) => some (x, b :: rest)

/-- `Portfolio::update_metrics` (betting.rs lines 301-324). -/
def Portfolio.update_metrics (p : Portfolio) : Portfolio :=
  if p.historical_bets.isEmpty then p
  else
    let total_bets := p.historical_bets.length
    let won_bets :=
      (p.historical_bets.filter (fun b => decide (b.status = .won))).length
    let win_rate := (won_bets : Rat) / (total_bets : Rat)
    let total_staked := (p.historical_bets.map (·.stake)).sum
    let roi :=
      if 0 < total_staked then p.total_profit_loss / total_staked else p.roi
    { p with win_rate := win_rate, roi := roi }

/-- `Portfolio::settle_bet` (betting.rs lines 265-291): removes the first active
bet with the given id, credits the payout (`stake * odds` on a win, `0` on a
loss), accumulates profit/loss, appends the bet to the historical list and
recomputes the derived metrics. -/
def Portfolio.settle_bet (p : Portfolio) (bet_id : Nat) (won : Bool) :
    Except QuantsError Portfolio :=
  match removeBet bet_id p.active_bets with
  | none => .error .matchNotFound
  | some (bet0, rest) =>
    let bet := bet0.update_status (if won then .won else .lost)
    let payout := if won then bet.potential_payout else 0
    let profit_loss := payout - bet.stake
    Except.ok (Portfolio.update_metrics
      { p with
        available_bankroll := p.available_bankroll + payout
        total_profit_loss := p.total_profit_loss + profit_loss
        active_bets := rest
        historical_bets := p.historical_bets ++ [bet] })

/-- `Portfolio::total_exposure`. -/
def Portfolio.total_exposure (p : Portfolio) : Rat :=
  (p.active_bets.map (·.stake)).sum

/-- `SimpleMarketOdds` from `crates/models/src/market.rs` lines 8-13. -/
structure SimpleMarketOdds where
  home_win : Rat
  draw : Rat
  away_win : Rat
  deriving Repr, DecidableEq

/-- `SimpleMarketOdds::new` (market.rs lines 15-18): stores the three decimal
odds values verbatim; the source performs no validation and is infallible. -/
def SimpleMarketOdds.new (home_win draw away_win : Rat) : SimpleMarketOdds :=
  { home_win := home_win, draw := draw, away_win := away_win }

/-- `Prediction` from `crates/models/src/predictions.rs` (id, timestamps and
json metadata omitted). -/
structure Prediction where
  match_id : String
  model_name : String
  model_version : String
  home_win_prob : Rat
  draw_prob : Option Rat
  away_win_prob : Rat
  confidence : Rat
  expected_goals_home : Option Rat
  expected_goals_away : Option Rat
  features_used : List String
  deriving Repr, DecidableEq

/-- `Prediction::new` (predictions.rs lines 49-85): validates that both given
probabilities are in [0,1] and do not sum above 1; the draw probability is
filled with the remainder when the sum is strictly below 1. -/
def Prediction.new (match_id model_name model_version : String)
    (home_win_prob away_win_prob : Rat) : Except QuantsError Prediction :=
  if ¬ (0 ≤ home_win_prob ∧ home_win_prob ≤ 1) then
    .error .invalidProbability
  else if ¬ (0 ≤ away_win_prob ∧ away_win_prob ≤ 1) then
    .error .invalidProbability
  else
    let total_prob := home_win_prob + away_win_prob
    if 1 < total_prob then
      .error .invalidProbability
    else
      .ok { match_id := match_id
            model_name := model_name
            model_version := model_version
            home_win_prob := home_win_prob
            draw_prob := if total_prob < 1 then some (1 - total_prob) else none
            away_win_prob := away_win_prob
            confidence := 0
            expected_goals_home := none
            expected_goals_away := none
            features_used := [] }

/-- `Prediction::with_draw_prob` (predictions.rs lines 87-99): accepts the draw
probability only when it lies in [0,1] and the three probabilities sum to 1
within the 1e-3 tolerance. -/
def Prediction.with_draw_prob (p : Prediction) (draw_prob : Rat) :
    Except QuantsError Prediction :=
  if ¬ (0 ≤ draw_prob ∧ draw_prob ≤ 1) then
    .error .invalidProbability
  else
    let total := p.home_win_prob + p.away_win_prob + draw_prob
    if 1/1000 < |total - 1| then
      .error .invalidProbability
    else
      .ok { p with draw_prob := some draw_prob }

/-- `Prediction::with_confidence` (predictions.rs lines 101-107). -/
def Prediction.with_confidence (p : Prediction) (confidence : Rat) :
    Except QuantsError Prediction :=
  if ¬ (0 ≤ confidence ∧ confidence ≤ 1) then
    .error .invalidProbability
  else
    .ok { p with confidence := confidence }

/-- The `.max(0.01).min(0.98)` clamp each model applies to a raw probability
(ml/src/models.rs lines 174-176, 310-312, 412-414). -/
def clampProb (x : Rat) : Rat :=
  min (max x (1/100)) (98/100)

/-- The shared clamp-then-renormalize stage of the Logistic, Poisson and
Ensemble `predict` paths (ml/src/models.rs lines 174-182, 309-318, 411-419):
each raw probability is clamped into [0.01, 0.98] and the triple is divided by
its sum. -/
def clampNormalize (home draw away : Rat) : Rat × Rat × Rat :=
  let home_c := clampProb home
  let draw_c := clampProb draw
  let away_c := clampProb away
  let total := home_c + draw_c + away_c
  (home_c / total, draw_c / total, away_c / total)

/-- `BettingStrategy` from `crates/models/src/betting.rs` lines 46-58. -/
structure BettingStrategy where
  name : String
  description : String
  min_odds : Rat
  max_odds : Rat
  min_edge : Rat
  max_stake_percent : Rat
  kelly_multiplier : Rat
  min_confidence : Rat
  max_correlation : Rat
  deriving Repr, DecidableEq

/-- `BettingStrategy::moderate` (betting.rs lines 175-188), the strategy the
engine always selects (`get_active_strategy`, trader.rs lines 373-377). -/
def BettingStrategy.moderate : BettingStrategy :=
  { name := "Moderate Growth"
    description := "Balanced approach between growth and risk"
    min_odds := 13/10
    max_odds := 5
    min_edge := 3/100
    max_stake_percent := 5/100
    kelly_multiplier := 1/2
    min_confidence := 6/10
    max_correlation := 5/10 }

/-- `BettingStrategy::should_bet` (betting.rs lines 205-218). -/
def BettingStrategy.should_bet (s : BettingStrategy)
    (odds true_probability confidence : Rat) : Bool :=
  let implied_probability := 1 / odds
  let edge := true_probability - implied_probability
  decide (s.min_odds ≤ odds) && decide (odds ≤ s.max_odds) &&
    decide (s.min_edge ≤ edge) && decide (s.min_confidence ≤ confidence)

/-- `BettingStrategy::calculate_stake` (betting.rs lines 220-231). -/
def BettingStrategy.calculate_stake (s : BettingStrategy)
    (bankroll kelly_fraction : Rat) : Rat :=
  let kelly_stake := bankroll * kelly_fraction * s.kelly_multiplier
  let max_stake := bankroll * s.max_stake_percent
  max (min kelly_stake max_stake) 0

/-- `RiskManager` from `crates/services/src/trader.rs` lines 22-30
(`daily_reset_time` omitted). -/
structure RiskManager where
  max_daily_loss : Rat
  max_concurrent_bets : Nat
  max_exposure_per_match : Rat
  correlation_threshold : Rat
  current_daily_loss : Rat
  deriving Repr, DecidableEq

/-- The `RiskManager` built by `TradingEngine::new` (trader.rs lines 58-65). -/
def RiskManager.initial (initial_bankroll : Rat) : RiskManager :=
  { max_daily_loss := initial_bankroll * (5/100)
    max_concurrent_bets := 10
    max_exposure_per_match := initial_bankroll * (1/10)
    correlation_threshold := 7/10
    current_daily_loss := 0 }

/-- `TradingEngine::apply_risk_constraints` (trader.rs lines 231-272): clamps
the proposed stake against the available bankroll (with a 5% buffer), the
per-match exposure cap and the daily loss cap, in that order, then rejects the
stake outright (returns 0) when the active-bet count has reached the
concurrency ceiling. -/
def applyRiskConstraints (rm : RiskManager) (proposed_stake : Rat)
    (match_id : String) (p : Portfolio) : Rat :=
  let stake1 :=
    if p.available_bankroll < proposed_stake then
      p.available_bankroll * (95/100)
    else proposed_stake
  let current_match_exposure :=
    ((p.active_bets.filter (fun b => decide (b.match_id = match_id))).map
      (·.stake)).sum
  let stake2 :=
    if rm.max_exposure_per_match < current_match_exposure + stake1 then
      max (rm.max_exposure_per_match - current_match_exposure) 0
    else stake1
  let stake3 :=
    if rm.max_daily_loss < rm.current_daily_loss + stake2 then
      max (rm.max_daily_loss - rm.current_daily_loss) 0
    else stake2
  if rm.max_concurrent_bets ≤ p.active_bets.length then 0
  else stake3

/-- `TradingEngine::analyze_bet_opportunity` (trader.rs lines 177-229): after
the `should_bet` gate, constructs a probe `BettingDecision` with stake
`dec!(0.0)` (the stake "will be calculated below"), sizes the Kelly stake,
applies the risk constraints, and rebuilds the decision with the final stake.
The two fresh Uuids are the caller-supplied `probe_id`/`final_id`. -/
def analyzeBetOpportunity (rm : RiskManager) (strategy : BettingStrategy)
    (p : Portfolio) (probe_id final_id : Nat) (match_id : String)
    (bet_type : BetType) (true_probability market_odds confidence : Rat) :
    Except QuantsError (Option BettingDecision) :=
  if ¬ strategy.should_bet market_odds true_probability confidence then
    .ok none
  else
    match BettingDecision.new probe_id match_id bet_type 0 market_odds
        true_probability strategy.name with
    | .error e => .error e
    | .ok bet =>
      let kelly_stake :=
        strategy.calculate_stake p.available_bankroll bet.kelly_fraction
      let adjusted_stake := applyRiskConstraints rm kelly_stake match_id p
      if adjusted_stake ≤ 0 then
        .ok none
      else
        match BettingDecision.new final_id match_id bet_type adjusted_stake
            market_odds true_probability strategy.name with
        | .error e => .error e
        | .ok final_bet => .ok (some final_bet)

/-- `TradingSignal` from trader.rs lines 32-39 (`risk_assessment` and the
formatted `reasoning` string omitted). -/
structure TradingSignal where
  match_id : String
  signal_strength : Rat
  recommended_bet : Option BettingDecision
  deriving Repr, DecidableEq

/-- The best-leg accumulator step of `generate_trading_signal` (trader.rs lines
122-127, 138-143, 154-159): a candidate replaces the current best only when its
edge-driven confidence is strictly greater. -/
def bestLegStep (acc : Option BettingDecision × Rat)
    (candidate : Option BettingDecision) : Option BettingDecision × Rat :=
  match candidate with
  | some bet => if acc.2 < bet.confidence then (some bet, bet.confidence) else acc
  | none => acc

/-- `TradingEngine::generate_trading_signal` (trader.rs lines 105-175):
evaluates the home, draw (when present) and away legs in that order via
`analyze_bet_opportunity`, keeping the leg with the strictly highest
edge-driven confidence. -/
def generateTradingSignal (rm : RiskManager) (strategy : BettingStrategy)
    (p : Portfolio) (pred : Prediction) (market_odds : SimpleMarketOdds) :
    Except QuantsError TradingSignal := do
  let home_result ← analyzeBetOpportunity rm strategy p 0 1 pred.match_id
    .homeWin pred.home_win_prob market_odds.home_win pred.confidence
  let acc1 := bestLegStep (none, 0) home_result
  let acc2 ←
    match pred.draw_prob with
    | some draw_prob => do
      let draw_result ← analyzeBetOpportunity rm strategy p 2 3 pred.match_id
        .draw draw_prob market_odds.draw pred.confidence
      pure (bestLegStep acc1 draw_result)
    | none => pure acc1
  let away_result ← analyzeBetOpportunity rm strategy p 4 5 pred.match_id
    .awayWin pred.away_win_prob market_odds.away_win pred.confidence
  let acc3 := bestLegStep acc2 away_result
  let signal_strength :=
    if acc3.1.isSome then min (acc3.2 * pred.confidence) 1 else 0
  pure { match_id := pred.match_id
         signal_strength := signal_strength
         recommended_bet := acc3.1 }

/-- `TradingEngine::process_prediction` (trader.rs lines 76-103): with no
market odds for the match it returns a zero-strength signal; otherwise it
defers to `generate_trading_signal`. -/
def processPrediction (rm : RiskManager) (strategy : BettingStrategy)
    (p : Portfolio) (pred : Prediction)
    (market_odds : Option SimpleMarketOdds) : Except QuantsError TradingSignal :=
  match market_odds with
  | none =>
    .ok { match_id := pred.match_id, signal_strength := 0, recommended_bet := none }
  | some odds => generateTradingSignal rm strategy p pred odds

/-- `PoissonModel::poisson_probability` (ml/src/models.rs lines 250-256):
`e^{-lambda} * lambda^k / k!`.  The transcendental factor `(-lambda).exp()` is
supplied as the explicit parameter `e_neg_lambda` (strictly positive for the
real exponential); `(1..=k).fold(1.0, |acc, x| acc * x)` is `k!`. -/
def poisson_probability (e_neg_lambda lambda : Rat) (k : Nat) : Rat :=
  let lambda_k := lambda ^ k
  let k_factorial : Rat := (Nat.factorial k : Rat)
  (e_neg_lambda * lambda_k) / k_factorial

/-- `PoissonModel::calculate_match_probabilities` (ml/src/models.rs lines
258-280): sums the joint Poisson mass over the 0-6 x 0-6 scoreline grid,
bucketing into (home_win, draw, away_win).  `e_home`/`e_away` stand for
`e^{-lambda_home}`/`e^{-lambda_away}`. -/
def calculate_match_probabilities (e_home e_away lambda_home lambda_away : Rat) :
    Rat × Rat × Rat :=
  (List.range 7).foldl (fun acc home_goals =>
    (List.range 7).foldl (fun acc away_goals =>
      let prob := poisson_probability e_home lambda_home home_goals *
        poisson_probability e_away lambda_away away_goals
      if away_goals < home_goals then (acc.1 + prob, acc.2.1, acc.2.2)
      else if home_goals = away_goals then (acc.1, acc.2.1 + prob, acc.2.2)
      else (acc.1, acc.2.1, acc.2.2 + prob)) acc) (0, 0, 0)

/-- A `Portfolio` mutation: one `place_bet` or `settle_bet` call. -/
inductive PortfolioOp where
  | place (bet : BettingDecision)
  | settle (bet_id : Nat) (won : Bool)
  deriving Repr

/-- Apply one operation to a portfolio. -/
def Portfolio.applyOp (p : Portfolio) : PortfolioOp → Except QuantsError Portfolio
  | .place bet => p.place_bet bet
  | .settle bet_id won => p.settle_bet bet_id won

/-- Run a sequence of operations, requiring every call to succeed. -/
def Portfolio.runOps (p : Portfolio) : List PortfolioOp → Except QuantsError Portfolio
  | [] => .ok p
  | op :: ops =>
    match p.applyOp op with
    | .ok p' => p'.runOps ops
    | .error e => .error e

/-- Run a sequence of operations where a failing call leaves the portfolio
unchanged (in the source both mutators return early, before any mutation, on
their error paths). -/
def Portfolio.runOpsTotal (p : Portfolio) : List PortfolioOp → Portfolio
  | [] => p
  | op :: ops =>
    match p.applyOp op with
    | .ok p' => p'.runOpsTotal ops
    | .error _ => p.runOpsTotal ops

/-- Sum of the stakes of the active bets (the `Σ(active bet stakes)` of the
bankroll invariant; identical to `Portfolio::total_exposure`). -/
def Portfolio.activeStakes (p : Portfolio) : Rat :=
  (p.active_bets.map (·.stake)).sum

/-- Net profit/loss of a settled bet: payout (stake times odds on a win, zero
otherwise) minus stake. -/
def BettingDecision.netPnL (b : BettingDecision) : Rat :=
  (if b.status = .won then b.stake * b.odds else 0) - b.stake

/-- `Σ(settled net P&L)` over the historical bets. -/
def Portfolio.settledPnL (p : Portfolio) : Rat :=
  (p.historical_bets.map BettingDecision.netPnL).sum

/-! ### Concrete inputs used by scenario claims -/

/-- The `BettingDecision` produced by
`BettingDecision::new(7, "m1", HomeWin, 100, 2.0, 0.6, "s")`. -/
def c3bet : BettingDecision :=
  { id := 7, match_id := "m1", bet_type := .homeWin, stake := 100, odds := 2,
    expected_value := 1/5, kelly_fraction := 1/5, confidence := 1/10,
    strategy := "s", status := .pending }

/-- The portfolio state after placing `c3bet` on a fresh 1000 bankroll. -/
def c3p1 : Portfolio :=
  { total_bankroll := 1000, available_bankroll := 900,
    active_bets := [{ c3bet with status := .placed }], historical_bets := [],
    total_profit_loss := 0, roi := 0, win_rate := 0, sharpe_ratio := 0,
    max_drawdown := 0 }

/-- The portfolio state after settling `c3bet` as a win. -/
def c3p2 : Portfolio :=
  { total_bankroll := 1000, available_bankroll := 1100,
    active_bets := [], historical_bets := [{ c3bet with status := .won }],
    total_profit_loss := 100, roi := 1, win_rate := 1, sharpe_ratio := 0,
    max_drawdown := 0 }

/-- A prediction whose home-win leg passes the moderate strategy gate
(home probability 0.6 against decimal odds 2.5 is a 20% edge; confidence
0.8 exceeds the 0.6 minimum). -/
def c4pred : Prediction :=
  { match_id := "test_match_123", model_name := "n", model_version := "v"
    home_win_prob := 3/5, draw_prob := some (1/5), away_win_prob := 1/5
    confidence := 4/5, expected_goals_home := none, expected_goals_away := none
    features_used := [] }

/-- Market odds undervaluing the home win for `c4pred`. -/
def c4odds : SimpleMarketOdds := SimpleMarketOdds.new (5/2) 4 4

/-- A winning-edge prediction for the concurrency-cap scenario: the home leg
(probability 0.6 at decimal odds 2.0, a 10% edge, confidence 0.7) passes the
moderate strategy gate. -/
def c5pred : Prediction :=
  { match_id := "m01", model_name := "n", model_version := "v"
    home_win_prob := 3/5, draw_prob := some (1/5), away_win_prob := 1/5
    confidence := 7/10, expected_goals_home := none, expected_goals_away := none
    features_used := [] }

/-- Market odds giving `c5pred` its winning home edge. -/
def c5odds : SimpleMarketOdds := SimpleMarketOdds.new 2 4 4

/-- A portfolio whose active list already holds 10 bets (the concurrency
ceiling). -/
def c5full : Portfolio :=
  { Portfolio.new 1000 with
    active_bets := (List.range 10).map (fun i =>
      { id := i, match_id := toString i, bet_type := .homeWin, stake := 50,
        odds := 2, expected_value := 0, kelly_fraction := 0, confidence := 0,
        strategy := "s", status := .placed }) }

/-- The probability invariant of a `Prediction`: every present probability
individually in [0,1] and the (present) probabilities summing to 1 within the
1e-3 tolerance. -/
def Prediction.valid (p : Prediction) : Prop :=
  (0 ≤ p.home_win_prob ∧ p.home_win_prob ≤ 1) ∧
  (0 ≤ p.away_win_prob ∧ p.away_win_prob ≤ 1) ∧
  (match p.draw_prob with
   | some d => 0 ≤ d ∧ d ≤ 1
   | none => True) ∧
  |p.home_win_prob + p.draw_prob.getD 0 + p.away_win_prob - 1| ≤ 1/1000

/-- The prediction produced by `Prediction::new("m","n","v", 0.6, 0.3)`. -/
def c6p : Prediction :=
  { match_id := "m", model_name := "n", model_version := "v",
    home_win_prob := 3/5, draw_prob := some (1/10), away_win_prob := 3/10,
    confidence := 0, expected_goals_home := none, expected_goals_away := none,
    features_used := [] }

/-- A bet whose 100 stake exceeds a 50 bankroll. -/
def c2bet : BettingDecision :=
  { id := 0, match_id := "m", bet_type := .homeWin, stake := 100, odds := 2,
    expected_value := 0, kelly_fraction := 0, confidence := 0,
    strategy := "s", status := .pending }

/-- The strengthened bankroll invariant carried through every
`place_bet`/`settle_bet` call: the accounting equation, agreement of the
running `total_profit_loss` with the settled net P&L, nonnegativity of the
available bankroll, and validity (positive stake, odds above 1, as enforced by
`BettingDecision::new`) of every active bet. -/
def Portfolio.goodState (p : Portfolio) (initial : Rat) : Prop :=
  p.available_bankroll = initial - p.activeStakes + p.settledPnL ∧
  p.total_profit_loss = p.settledPnL ∧
  0 ≤ p.available_bankroll ∧
  ∀ b ∈ p.active_bets, 0 < b.stake ∧ 1 < b.odds

/-! ### Helper lemmas -/

/-- `update_metrics` only recomputes `win_rate` and `roi`; every other field is
untouched. -/
theorem update_metrics_frame (p : Portfolio) :
    (p.update_metrics).total_bankroll = p.total_bankroll ∧
    (p.update_metrics).available_bankroll = p.available_bankroll ∧
    (p.update_metrics).active_bets = p.active_bets ∧
    (p.update_metrics).historical_bets = p.historical_bets ∧
    (p.update_metrics).total_profit_loss = p.total_profit_loss := by
  unfold Portfolio.update_metrics
  split <;> exact ⟨rfl, rfl, rfl, rfl, rfl⟩

/-- Characterization of a successful `place_bet`. -/
theorem place_bet_ok {p : Portfolio} {bet : BettingDecision} {p' : Portfolio}
    (h : p.place_bet bet = .ok p') :
    bet.stake ≤ p.available_bankroll ∧
    p' = { p with
           available_bankroll := p.available_bankroll - bet.stake
           active_bets := p.active_bets ++ [bet.update_status .placed] } := by
  unfold Portfolio.place_bet at h
  split at h
  · simp at h
  · rename_i hge
    simp only [Except.ok.injEq] at h
    exact ⟨le_of_not_lt hge, h.symm⟩

/-- Characterization of a successful `settle_bet`. -/
theorem settle_bet_ok {p : Portfolio} {bet_id : Nat} {won : Bool} {p' : Portfolio}
    (h : p.settle_bet bet_id won = .ok p') :
    ∃ bet0 rest, removeBet bet_id p.active_bets = some (bet0, rest) ∧
      p' = Portfolio.update_metrics
        { p with
          available_bankroll := p.available_bankroll +
            (if won then bet0.stake * bet0.odds else 0)
          total_profit_loss := p.total_profit_loss +
            ((if won then bet0.stake * bet0.odds else 0) - bet0.stake)
          active_bets := rest
          historical_bets := p.historical_bets ++
            [bet0.update_status (if won then .won else .lost)] } := by
  unfold Portfolio.settle_bet at h
  cases hrem : removeBet bet_id p.active_bets with
  | none => rw [hrem] at h; simp at h
  | some pr =>
    obtain ⟨bet0, rest⟩ := pr
    rw [hrem] at h
    simp only [Except.ok.injEq] at h
    refine ⟨bet0, rest, rfl, ?_⟩
    rw [← h]
    cases won <;>
      simp [BettingDecision.potential_payout, BettingDecision.update_status]

/-- `removeBet` splits the stake sum and returns a member of the list together
with a sublist of it. -/
theorem removeBet_spec {bet_id : Nat} :
    ∀ {l : List BettingDecision} {b : BettingDecision}
      {rest : List BettingDecision}, removeBet bet_id l = some (b, rest) →
      ((l.map (·.stake)).sum = b.stake + (rest.map (·.stake)).sum ∧
        b ∈ l ∧ ∀ x ∈ rest, x ∈ l) := by
  intro l
  induction l with
  | nil => intro b rest h; simp [removeBet] at h
  | cons hd tl ih =>
    intro b rest h
    unfold removeBet at h
    split at h
    · simp only [Option.some.injEq, Prod.mk.injEq] at h
      obtain ⟨rfl, rfl⟩ := h
      exact ⟨by simp, List.mem_cons_self _ _,
        fun x hx => List.mem_cons_of_mem _ hx⟩
    · cases hrec : removeBet bet_id tl with
      | none => rw [hrec] at h; simp at h
      | some pr =>
        obtain ⟨x, r⟩ := pr
        rw [hrec] at h
        simp only [Option.some.injEq, Prod.mk.injEq] at h
        obtain ⟨rfl, rfl⟩ := h
        obtain ⟨hsum, hmem, hsub⟩ := ih hrec
        refine ⟨by simp [hsum]; ring, List.mem_cons_of_mem _ hmem, ?_⟩
        intro y hy
        rcases List.mem_cons.mp hy with rfl | hy'
        · exact List.mem_cons_self _ _
        · exact List.mem_cons_of_mem _ (hsub y hy')

/-- One successful operation preserves `goodState` (placed bets must be valid,
as `BettingDecision::new` guarantees). -/
theorem goodState_applyOp {initial : Rat} {p p' : Portfolio} {op : PortfolioOp}
    (hg : p.goodState initial)
    (hv : ∀ b, op = .place b → 0 < b.stake ∧ 1 < b.odds)
    (h : p.applyOp op = .ok p') : p'.goodState initial := by
  obtain ⟨heq, hpnl, hnn, hact⟩ := hg
  cases op with
  | place bet =>
    obtain ⟨hle, rfl⟩ := place_bet_ok h
    obtain ⟨hbs, hbo⟩ := hv bet rfl
    have hstakes : Portfolio.activeStakes
        { p with
          available_bankroll := p.available_bankroll - bet.stake
          active_bets := p.active_bets ++ [bet.update_status .placed] } =
        p.activeStakes + bet.stake := by
      simp [Portfolio.activeStakes, BettingDecision.update_status]
    refine ⟨?_, hpnl, ?_, ?_⟩
    · show p.available_bankroll - bet.stake = _
      rw [hstakes]
      show _ = initial - (p.activeStakes + bet.stake) + p.settledPnL
      rw [heq]; ring
    · show 0 ≤ p.available_bankroll - bet.stake
      linarith
    · intro b hb
      rcases List.mem_append.mp hb with hb' | hb'
      · exact hact b hb'
      · rcases List.mem_singleton.mp hb' with rfl
        exact ⟨hbs, hbo⟩
  | settle bid won =>
    obtain ⟨bet0, rest, hrem, rfl⟩ := settle_bet_ok h
    obtain ⟨hsum, hmem, hsub⟩ := removeBet_spec hrem
    obtain ⟨hb0s, hb0o⟩ := hact bet0 hmem
    have hpay : 0 ≤ (if won then bet0.stake * bet0.odds else 0) := by
      cases won with
      | true =>
        simp only [if_pos rfl]
        exact le_of_lt (mul_pos hb0s (lt_trans zero_lt_one hb0o))
      | false => simp
    obtain ⟨-, hav, hac, hhi, htp⟩ := update_metrics_frame
      { p with
        available_bankroll := p.available_bankroll +
          (if won then bet0.stake * bet0.odds else 0)
        total_profit_loss := p.total_profit_loss +
          ((if won then bet0.stake * bet0.odds else 0) - bet0.stake)
        active_bets := rest
        historical_bets := p.historical_bets ++
          [bet0.update_status (if won then .won else .lost)] }
    have hnet : BettingDecision.netPnL
        (bet0.update_status (if won then .won else .lost)) =
        (if won then bet0.stake * bet0.odds else 0) - bet0.stake := by
      cases won <;> simp [BettingDecision.netPnL, BettingDecision.update_status]
    refine ⟨?_, ?_, ?_, ?_⟩
    · rw [hav]
      show p.available_bankroll + _ =
        initial - Portfolio.activeStakes _ + Portfolio.settledPnL _
      rw [Portfolio.activeStakes, hac, Portfolio.settledPnL, hhi]
      simp only [List.map_append, List.sum_append, List.map_cons, List.sum_cons,
        List.map_nil, List.sum_nil, hnet]
      simp only [Portfolio.activeStakes, Portfolio.settledPnL] at heq hsum
      rw [heq]
      linarith [hsum]
    · rw [htp]
      show p.total_profit_loss + _ = Portfolio.settledPnL _
      rw [Portfolio.settledPnL, hhi]
      simp only [List.map_append, List.sum_append, List.map_cons, List.sum_cons,
        List.map_nil, List.sum_nil, hnet]
      simp only [Portfolio.settledPnL] at hpnl
      linarith [hpnl]
    · rw [hav]
      have hgoal : (0:Rat) ≤ p.available_bankroll +
          (if won = true then bet0.stake * bet0.odds else 0) := by
        linarith [hpay]
      exact hgoal
    · intro b hb
      rw [hac] at hb
      exact hact b (hsub b hb)

/-- `goodState` is preserved by any successful run of operations. -/
theorem goodState_runOps {initial : Rat} :
    ∀ {ops : List PortfolioOp} {p p' : Portfolio}, p.goodState initial →
      (∀ b, PortfolioOp.place b ∈ ops → 0 < b.stake ∧ 1 < b.odds) →
      p.runOps ops = .ok p' → p'.goodState initial := by
  intro ops
  induction ops with
  | nil =>
    intro p p' hg _ h
    simp only [Portfolio.runOps, Except.ok.injEq] at h
    exact h ▸ hg
  | cons op rest ih =>
    intro p p' hg hv h
    unfold Portfolio.runOps at h
    cases hop : p.applyOp op with
    | error e => rw [hop] at h; simp at h
    | ok q =>
      rw [hop] at h
      have hg' : q.goodState initial :=
        goodState_applyOp hg (fun b hb => hv b (hb ▸ List.mem_cons_self _ _)) hop
      exact ih hg' (fun b hb => hv b (List.mem_cons_of_mem _ hb)) h

/-- A successful operation never touches `total_bankroll`. -/
theorem applyOp_bankroll {p p' : Portfolio} {op : PortfolioOp}
    (h : p.applyOp op = .ok p') : p'.total_bankroll = p.total_bankroll := by
  cases op with
  | place bet =>
    obtain ⟨-, rfl⟩ := place_bet_ok h
    rfl
  | settle bid won =>
    obtain ⟨bet0, rest, -, rfl⟩ := settle_bet_ok h
    exact (update_metrics_frame _).1

/-- A successful `Prediction::new` satisfies the probability invariant. -/
theorem prediction_new_ok_valid {mid mname mver : String} {h a : Rat}
    {p : Prediction} (hok : Prediction.new mid mname mver h a = .ok p) :
    p.valid := by
  unfold Prediction.new at hok
  split at hok
  · simp at hok
  · split at hok
    · simp at hok
    · rename_i hh ha
      rw [not_not] at hh ha
      obtain ⟨hh0, hh1⟩ := hh
      obtain ⟨ha0, ha1⟩ := ha
      dsimp only [] at hok
      split at hok
      · simp at hok
      · rename_i htot
        push_neg at htot
        simp only [Except.ok.injEq] at hok
        subst hok
        unfold Prediction.valid
        refine ⟨⟨hh0, hh1⟩, ⟨ha0, ha1⟩, ?_, ?_⟩
        · by_cases hlt : h + a < 1
          · simp only [if_pos hlt]
            constructor <;> linarith
          · simp only [if_neg hlt]
        · by_cases hlt : h + a < 1
          · simp only [if_pos hlt, Option.getD_some]
            rw [abs_le]
            constructor <;> linarith
          · simp only [if_neg hlt, Option.getD_none]
            have heq1 : h + a = 1 := le_antisymm htot (not_lt.mp hlt)
            rw [abs_le]
            constructor <;> linarith

/-- `with_draw_prob` applied to a `Prediction::new` result keeps the
probability invariant (its own check enforcing the 1e-3 tolerance). -/
theorem with_draw_prob_ok_valid {h a dp : Rat} {mid mname mver : String}
    {p p' : Prediction} (hok : Prediction.new mid mname mver h a = .ok p)
    (hdp : p.with_draw_prob dp = .ok p') : p'.valid := by
  obtain ⟨⟨hh0, hh1⟩, ⟨ha0, ha1⟩, -, -⟩ := prediction_new_ok_valid hok
  unfold Prediction.with_draw_prob at hdp
  split at hdp
  · simp at hdp
  · rename_i hd
    rw [not_not] at hd
    obtain ⟨hd0, hd1⟩ := hd
    dsimp only [] at hdp
    split at hdp
    · simp at hdp
    · rename_i htol
      push_neg at htol
      simp only [Except.ok.injEq] at hdp
      subst hdp
      refine ⟨⟨hh0, hh1⟩, ⟨ha0, ha1⟩, ⟨hd0, hd1⟩, ?_⟩
      show |p.home_win_prob + dp + p.away_win_prob - 1| ≤ 1/1000
      have hcomm : p.home_win_prob + dp + p.away_win_prob - 1 =
          p.home_win_prob + p.away_win_prob + dp - 1 := by ring
      rw [hcomm]
      exact htol

/-- The `[0.01, 0.98]` clamp. -/
theorem clampProb_bounds (x : Rat) :
    1/100 ≤ clampProb x ∧ clampProb x ≤ 98/100 := by
  unfold clampProb
  constructor
  · exact le_min (le_max_right _ _) (by norm_num)
  · exact min_le_right _ _

/-- Clamp-and-renormalize always yields three probabilities in [0,1] summing
to exactly 1. -/
theorem clampNormalize_valid (home draw away : Rat) :
    (0 ≤ (clampNormalize home draw away).1 ∧ (clampNormalize home draw away).1 ≤ 1) ∧
    (0 ≤ (clampNormalize home draw away).2.1 ∧ (clampNormalize home draw away).2.1 ≤ 1) ∧
    (0 ≤ (clampNormalize home draw away).2.2 ∧ (clampNormalize home draw away).2.2 ≤ 1) ∧
    (clampNormalize home draw away).1 + (clampNormalize home draw away).2.1 +
      (clampNormalize home draw away).2.2 = 1 := by
  obtain ⟨hh0, hh1⟩ := clampProb_bounds home
  obtain ⟨hd0, hd1⟩ := clampProb_bounds draw
  obtain ⟨ha0, ha1⟩ := clampProb_bounds away
  unfold clampNormalize
  dsimp only []
  set ch := clampProb home with hch
  set cd := clampProb draw with hcd
  set ca := clampProb away with hca
  have htot : 0 < ch + cd + ca := by linarith
  refine ⟨⟨?_, ?_⟩, ⟨?_, ?_⟩, ⟨?_, ?_⟩, ?_⟩
  · positivity
  · rw [div_le_one htot]; linarith
  · positivity
  · rw [div_le_one htot]; linarith
  · positivity
  · rw [div_le_one htot]; linarith
  · field_simp

/-- For any triple in [0,1] summing to exactly 1, the model construction path
`Prediction::new` followed by `with_draw_prob` succeeds and the result
satisfies the probability invariant. -/
theorem new_then_draw_ok (mid mname mver : String) {h d a : Rat}
    (hh0 : 0 ≤ h) (hh1 : h ≤ 1) (ha0 : 0 ≤ a) (ha1 : a ≤ 1)
    (hd0 : 0 ≤ d) (hd1 : d ≤ 1) (hsum : h + d + a = 1) :
    ∃ q q', Prediction.new mid mname mver h a = .ok q ∧
      q.with_draw_prob d = .ok q' ∧ q'.valid := by
  have hok : Prediction.new mid mname mver h a = .ok
      { match_id := mid, model_name := mname, model_version := mver,
        home_win_prob := h,
        draw_prob := if h + a < 1 then some (1 - (h + a)) else none,
        away_win_prob := a, confidence := 0, expected_goals_home := none,
        expected_goals_away := none, features_used := [] } := by
    unfold Prediction.new
    rw [if_neg (not_not_intro ⟨hh0, hh1⟩), if_neg (not_not_intro ⟨ha0, ha1⟩)]
    dsimp only []
    rw [if_neg (by push_neg; linarith)]
  refine ⟨_,
    { match_id := mid, model_name := mname, model_version := mver,
      home_win_prob := h, draw_prob := some d, away_win_prob := a,
      confidence := 0, expected_goals_home := none,
      expected_goals_away := none, features_used := [] }, hok, ?_, ?_⟩
  · unfold Prediction.with_draw_prob
    rw [if_neg (not_not_intro ⟨hd0, hd1⟩)]
    dsimp only []
    rw [if_neg (by push_neg; rw [show h + a + d - 1 = 0 by linarith]; norm_num)]
  · refine ⟨⟨hh0, hh1⟩, ⟨ha0, ha1⟩, ⟨hd0, hd1⟩, ?_⟩
    show |h + d + a - 1| ≤ 1/1000
    rw [hsum]
    norm_num

/-! ### Claim theorems -/

/-- C1: for every sequence of `place_bet`/`settle_bet` calls that all succeed,
starting from `Portfolio::new(initial)` with a nonnegative initial bankroll
and bets that satisfy the `BettingDecision::new` construction invariant
(stake > 0, odds > 1), the exact accounting equation
`available_bankroll = initial − Σ(active stakes) + Σ(settled net P&L)` holds
after every call (any prefix of the sequence is itself such a sequence), and
`available_bankroll` is never negative. -/
theorem C1_bankroll_invariant (initial : Rat) (ops : List PortfolioOp)
    (p : Portfolio) (hinit : 0 ≤ initial)
    (hvalid : ∀ b, PortfolioOp.place b ∈ ops → 0 < b.stake ∧ 1 < b.odds)
    (hok : (Portfolio.new initial).runOps ops = .ok p) :
    p.available_bankroll = initial - p.activeStakes + p.settledPnL ∧
    0 ≤ p.available_bankroll := by
  have hg0 : (Portfolio.new initial).goodState initial := by
    refine ⟨?_, rfl, hinit, ?_⟩
    · simp [Portfolio.new, Portfolio.activeStakes, Portfolio.settledPnL]
    · intro b hb; simp [Portfolio.new] at hb
  obtain ⟨h1, -, h3, -⟩ := goodState_runOps hg0 hvalid hok
  exact ⟨h1, h3⟩

/-- C1 witness: the place-then-settle run of the C3 scenario satisfies the
bankroll accounting equation and nonnegativity. -/
theorem C1_bankroll_invariant_witness :
    c3p2.available_bankroll = 1000 - c3p2.activeStakes + c3p2.settledPnL ∧
    0 ≤ c3p2.available_bankroll :=
  C1_bankroll_invariant 1000 [PortfolioOp.place c3bet, PortfolioOp.settle 7 true]
    c3p2 (by norm_num)
    (by
      intro b hb
      simp only [List.mem_cons, List.not_mem_nil, or_false] at hb
      rcases hb with hb | hb
      · rw [PortfolioOp.place.injEq] at hb
        subst hb
        norm_num [c3bet]
      · exact absurd hb (by simp))
    (by
      norm_num [Portfolio.runOps, Portfolio.applyOp, Portfolio.place_bet,
        Portfolio.settle_bet, removeBet, Portfolio.update_metrics,
        Portfolio.new, c3bet, c3p2, BettingDecision.update_status,
        BettingDecision.potential_payout])

/-- C10: no sequence of `place_bet`/`settle_bet` calls — succeeding or failing
(a failing call returns before any mutation) — ever changes `total_bankroll`:
it stays equal to the initial bankroll given to `Portfolio::new`. -/
theorem C10_total_bankroll_frame (initial : Rat) (ops : List PortfolioOp) :
    ((Portfolio.new initial).runOpsTotal ops).total_bankroll = initial := by
  have aux : ∀ (ops : List PortfolioOp) (p : Portfolio),
      (p.runOpsTotal ops).total_bankroll = p.total_bankroll := by
    intro ops
    induction ops with
    | nil => intro p; rfl
    | cons op rest ih =>
      intro p
      unfold Portfolio.runOpsTotal
      cases hop : p.applyOp op with
      | ok q => rw [ih q, applyOp_bankroll hop]
      | error e => exact ih p
  rw [aux]
  rfl

/-- C2: `BettingDecision::new` fails for every input with odds ≤ 1.0 and for
every input with stake ≤ 0, and `Portfolio::place_bet` with a stake exceeding
the available bankroll returns an error; in this functional embedding the
error return means the portfolio value is unchanged, which `runOpsTotal`
makes explicit. -/
theorem C2_construction_guards (id : Nat) (mid : String) (bt : BetType)
    (stake odds tp : Rat) (strat : String) (p : Portfolio)
    (bet : BettingDecision) :
    (odds ≤ 1 → ∃ e, BettingDecision.new id mid bt stake odds tp strat = .error e) ∧
    (stake ≤ 0 →
      BettingDecision.new id mid bt stake odds tp strat = .error .invalidStake) ∧
    (p.available_bankroll < bet.stake →
      p.place_bet bet = .error .invalidStake ∧
      p.runOpsTotal [PortfolioOp.place bet] = p) := by
  refine ⟨?_, ?_, ?_⟩
  · intro ho
    by_cases hs : stake ≤ 0
    · exact ⟨.invalidStake, by simp [BettingDecision.new, hs]⟩
    · exact ⟨.invalidOdds, by simp [BettingDecision.new, hs, ho]⟩
  · intro hs
    simp [BettingDecision.new, hs]
  · intro hlow
    have herr : p.place_bet bet = .error .invalidStake := by
      simp [Portfolio.place_bet, hlow]
    exact ⟨herr, by simp [Portfolio.runOpsTotal, Portfolio.applyOp, herr]⟩

/-- C2 witness: odds exactly 1.0 fails, stake 0 fails, and placing a 100 stake
on a 50 bankroll fails leaving the portfolio unchanged. -/
theorem C2_construction_guards_witness :
    (∃ e, BettingDecision.new 0 "m" BetType.homeWin 100 1 (3/5) "s" = .error e) ∧
    BettingDecision.new 0 "m" BetType.homeWin 0 2 (3/5) "s" = .error .invalidStake ∧
    ((Portfolio.new 50).place_bet c2bet = .error .invalidStake ∧
      (Portfolio.new 50).runOpsTotal [PortfolioOp.place c2bet] = Portfolio.new 50) :=
  ⟨(C2_construction_guards 0 "m" .homeWin 100 1 (3/5) "s" (Portfolio.new 50)
      c2bet).1 (by norm_num),
   (C2_construction_guards 0 "m" .homeWin 0 2 (3/5) "s" (Portfolio.new 50)
      c2bet).2.1 (by norm_num),
   (C2_construction_guards 0 "m" .homeWin 0 2 (3/5) "s" (Portfolio.new 50)
      c2bet).2.2 (by norm_num [Portfolio.new, c2bet])⟩

/-- C3: on a fresh 1000 bankroll, placing a HomeWin bet of stake 100 at odds
2.0 leaves 900 available with one active bet; settling it as a win moves the
bet to the historical list, credits the 200 payout, and leaves 1100 available
with profit/loss +100 and no active bets. -/
theorem C3_scenario_place_then_win :
    BettingDecision.new 7 "m1" BetType.homeWin 100 2 (3/5) "s" = .ok c3bet ∧
    (Portfolio.new 1000).place_bet c3bet = .ok c3p1 ∧
    c3p1.available_bankroll = 900 ∧ c3p1.active_bets.length = 1 ∧
    c3p1.settle_bet 7 true = .ok c3p2 ∧
    c3p2.available_bankroll = 1100 ∧ c3p2.total_profit_loss = 100 ∧
    c3p2.active_bets.length = 0 ∧ c3p2.historical_bets.length = 1 := by
  refine ⟨?_, ?_, rfl, rfl, ?_, rfl, rfl, rfl, rfl⟩
  · norm_num [BettingDecision.new, c3bet]
  · norm_num [Portfolio.place_bet, Portfolio.new, c3bet, c3p1,
      BettingDecision.update_status]
  · norm_num [Portfolio.settle_bet, removeBet, c3p1, c3p2, c3bet,
      BettingDecision.update_status, BettingDecision.potential_payout,
      Portfolio.update_metrics]

/-- C4: the claim describes `process_prediction` returning a signal that
recommends the best-edge leg, but on any prediction with a leg that passes the
strategy gate the code instead returns `Err(InvalidStake)`: the probe
`BettingDecision::new` call inside `analyze_bet_opportunity` uses stake
`dec!(0.0)`, which the constructor rejects.  At the concrete input below the
home leg passes `should_bet`, yet the pipeline produces an error and never
recommends anything. -/
theorem C4_probe_stake_error :
    BettingStrategy.moderate.should_bet c4odds.home_win c4pred.home_win_prob
      c4pred.confidence = true ∧
    processPrediction (RiskManager.initial 10000) BettingStrategy.moderate
      (Portfolio.new 10000) c4pred (some c4odds) = .error .invalidStake := by
  constructor
  · norm_num [BettingStrategy.should_bet, BettingStrategy.moderate, c4pred,
      c4odds, SimpleMarketOdds.new]
  · norm_num [processPrediction, generateTradingSignal, analyzeBetOpportunity,
      BettingDecision.new, BettingStrategy.should_bet, BettingStrategy.moderate,
      RiskManager.initial, Portfolio.new, c4pred, c4odds, SimpleMarketOdds.new,
      bestLegStep, Bind.bind, Except.bind]

/-- C5: `apply_risk_constraints` does return a zero stake (after the bankroll,
per-match-exposure and daily-loss clamps) whenever the active-bet count has
reached the ceiling of 10 — the first conjunct proves this for every proposed
stake, match and portfolio.  The 12-winning-signal scenario, however, fails on
the code: each winning-edge signal makes `process_prediction` return
`Err(InvalidStake)` (the zero-stake probe bet of `analyze_bet_opportunity`),
so no bet is ever placed at all — the second conjunct evaluates the pipeline
on such a signal against the fresh engine state. -/
theorem C5_concurrency_cap (initial proposed : Rat) (mid : String)
    (p : Portfolio) (hfull : 10 ≤ p.active_bets.length) :
    applyRiskConstraints (RiskManager.initial initial) proposed mid p = 0 ∧
    processPrediction (RiskManager.initial 1000) BettingStrategy.moderate
      (Portfolio.new 1000) c5pred (some c5odds) = .error .invalidStake := by
  constructor
  · simp [applyRiskConstraints, RiskManager.initial, hfull]
  · norm_num [processPrediction, generateTradingSignal, analyzeBetOpportunity,
      BettingDecision.new, BettingStrategy.should_bet, BettingStrategy.moderate,
      RiskManager.initial, Portfolio.new, c5pred, c5odds, SimpleMarketOdds.new,
      bestLegStep, Bind.bind, Except.bind]

/-- C5 witness: a portfolio holding 10 active bets makes
`apply_risk_constraints` return stake 0. -/
theorem C5_concurrency_cap_witness :
    10 ≤ c5full.active_bets.length ∧
    applyRiskConstraints (RiskManager.initial 1000) 37 "m" c5full = 0 :=
  ⟨by simp [c5full, Portfolio.new],
   (C5_concurrency_cap 1000 37 "m" c5full (by simp [c5full, Portfolio.new])).1⟩

/-- C7 counterexample: `SimpleMarketOdds::new` performs no validation, so a
constructed value can hold odds ≤ 1.0 — refuting both "always > 1.0" and
"odds ≤ 1.0 signal a construction error". -/
theorem C7_counterexample_no_validation :
    ¬ (1 < (SimpleMarketOdds.new (1/2) (1/2) (1/2)).home_win) := by
  norm_num [SimpleMarketOdds.new]

/-- C7 (amended): `SimpleMarketOdds::new` is infallible and stores the three
supplied decimal odds verbatim; no range check is performed. -/
theorem C7_new_stores_verbatim (home draw away : Rat) :
    SimpleMarketOdds.new home draw away =
      { home_win := home, draw := draw, away_win := away } := rfl

/-- C8: every successful `BettingDecision::new` has
`kelly_fraction = max 0 ((b·p − (1−p))/b)` with `b = odds − 1` (the success
path guarantees `odds > 1`, hence `b > 0`), and the stored Kelly fraction is
never negative. -/
theorem C8_kelly_fraction (id : Nat) (mid : String) (bt : BetType)
    (stake odds tp : Rat) (strat : String) (d : BettingDecision)
    (hok : BettingDecision.new id mid bt stake odds tp strat = .ok d) :
    d.kelly_fraction = max 0 (((odds - 1) * tp - (1 - tp)) / (odds - 1)) ∧
    0 ≤ d.kelly_fraction := by
  unfold BettingDecision.new at hok
  split at hok
  · simp at hok
  · split at hok
    · simp at hok
    · rename_i hs ho
      have hb : 0 < odds - 1 := by
        have := lt_of_not_le ho
        linarith
      simp only [Except.ok.injEq] at hok
      subst hok
      simp only [if_pos hb]
      exact ⟨max_comm _ _, le_max_right _ _⟩

/-- C8 witness: `BettingDecision::new(0, "m", HomeWin, 100, 2.0, 0.6, "s")`
stores Kelly fraction `max 0 ((1·0.6 − 0.4)/1) = 0.2 ≥ 0`. -/
theorem C8_kelly_fraction_witness :
    c3bet.kelly_fraction = max 0 (((2 - 1) * (3/5) - (1 - 3/5)) / (2 - 1)) ∧
    0 ≤ c3bet.kelly_fraction :=
  C8_kelly_fraction 7 "m1" .homeWin 100 2 (3/5) "s" c3bet
    (by norm_num [BettingDecision.new, c3bet])

-- The 0-6 x 0-6 Poisson grid sums at base rates 1.4/1.3 factor into
-- `e^{-1.4} * e^{-1.3}` times explicit rational constants.
set_option maxHeartbeats 1000000 in
theorem calculate_match_probabilities_factor (eH eA : Rat) :
    calculate_match_probabilities eH eA (7/5) (13/10) =
      (eH * eA * (790468235601107/135000000000000),
       eH * eA * (31072131910113841/8100000000000000),
       eH * eA * (349183204474897/67500000000000)) := by
  norm_num [calculate_match_probabilities, poisson_probability,
    List.range_succ, Nat.factorial]
  norm_num [Prod.ext_iff]
  ring_nf
  norm_num

/-- C9: the Poisson model at base rates `lambda_home = 1.4`,
`lambda_away = 1.3` with no adjustment features, summing the joint Poisson
mass over the 0-6 x 0-6 scoreline grid, gives a strictly larger home-win
probability than away-win probability — for any (positive) values of the
transcendental factors `e^{-1.4}` and `e^{-1.3}`. -/
theorem C9_poisson_home_advantage (eH eA : Rat) (hH : 0 < eH) (hA : 0 < eA) :
    (calculate_match_probabilities eH eA (7/5) (13/10)).2.2 <
    (calculate_match_probabilities eH eA (7/5) (13/10)).1 := by
  rw [calculate_match_probabilities_factor]
  have hpos : 0 < eH * eA := mul_pos hH hA
  have hlt : (349183204474897:Rat)/67500000000000 <
      790468235601107/135000000000000 := by norm_num
  exact mul_lt_mul_of_pos_left hlt hpos

/-- C9 witness: instantiating both exponential factors at the positive value 1
gives a concrete strict inequality between the grid sums. -/
theorem C9_poisson_home_advantage_witness :
    (calculate_match_probabilities 1 1 (7/5) (13/10)).2.2 <
    (calculate_match_probabilities 1 1 (7/5) (13/10)).1 :=
  C9_poisson_home_advantage 1 1 (by norm_num) (by norm_num)

/-- C6: every successfully constructed `Prediction` satisfies the probability
invariant (each present probability in [0,1], present probabilities summing to
1 within 1e-3) — for `Prediction::new` alone, for `new` followed by
`with_draw_prob`, and for the clamp-and-renormalize output triple every model
feeds through that construction path (where the sum is exactly 1 and the
construction always succeeds).  Construction fails whenever these conditions
would be violated, being the contrapositive of the first two conjuncts. -/
theorem C6_prediction_probability_invariant (mid mname mver : String)
    (h a dp h0 d0 a0 : Rat) (p p' : Prediction) :
    (Prediction.new mid mname mver h a = .ok p → p.valid) ∧
    (Prediction.new mid mname mver h a = .ok p →
      p.with_draw_prob dp = .ok p' → p'.valid) ∧
    ((0 ≤ (clampNormalize h0 d0 a0).1 ∧ (clampNormalize h0 d0 a0).1 ≤ 1) ∧
     (0 ≤ (clampNormalize h0 d0 a0).2.1 ∧ (clampNormalize h0 d0 a0).2.1 ≤ 1) ∧
     (0 ≤ (clampNormalize h0 d0 a0).2.2 ∧ (clampNormalize h0 d0 a0).2.2 ≤ 1) ∧
     (clampNormalize h0 d0 a0).1 + (clampNormalize h0 d0 a0).2.1 +
       (clampNormalize h0 d0 a0).2.2 = 1 ∧
     ∃ q q', Prediction.new mid mname mver (clampNormalize h0 d0 a0).1
         (clampNormalize h0 d0 a0).2.2 = .ok q ∧
       q.with_draw_prob (clampNormalize h0 d0 a0).2.1 = .ok q' ∧ q'.valid) := by
  obtain ⟨hb1, hb2, hb3, hbsum⟩ := clampNormalize_valid h0 d0 a0
  refine ⟨fun hok => prediction_new_ok_valid hok,
    fun hok hdp => with_draw_prob_ok_valid hok hdp,
    hb1, hb2, hb3, hbsum, ?_⟩
  exact new_then_draw_ok mid mname mver hb1.1 hb1.2 hb3.1 hb3.2 hb2.1 hb2.2 hbsum

/-- C6 witness: `Prediction::new("m","n","v", 0.6, 0.3)` succeeds (filling the
draw remainder 0.1) and the follow-up `with_draw_prob(0.1)` succeeds, with the
result satisfying the probability invariant. -/
theorem C6_prediction_probability_invariant_witness : c6p.valid :=
  (C6_prediction_probability_invariant "m" "n" "v" (3/5) (3/10) (1/10) 0 0 0
    c6p c6p).2.1
    (by norm_num [Prediction.new, c6p])
    (by norm_num [Prediction.with_draw_prob, c6p])

end Spbook
